import Mathlib

/-!
Verification development for the route-scanner repository: a shallow embedding
of the feature-matching and geometric-registration pipeline (ORB feature
export/import and matching, homography-based landmark transfer, and the
adaptive crop tracker of the pose-extraction loop), with theorems settling
the specification claims.

Conventions of the embedding:
- pixel coordinates and matrix entries are rationals (exact arithmetic);
- a JavaScript value that can be `NaN` after a division is an `Option`,
  with `none` standing for NaN/undefined;
- a JavaScript function that can `throw` returns `Except String`;
- calls into OpenCV.js (`cv.findHomography`, `cv.estimateAffine2D`,
  `orb.detectAndCompute`) are external collaborators: they enter the
  embedding as explicit function parameters or as pre-computed inputs.
-/

namespace RouteScanner

/-- A plain 2D point, as the `{x, y}` objects the repository passes around. -/
structure Pt where
  x : ℚ
  y : ℚ
deriving Repr, DecidableEq

/-- An image size `{width, height}`. -/
structure SizeWH where
  width : ℚ
  height : ℚ
deriving Repr, DecidableEq

/-- A serialized ORB keypoint, as produced by `_serializeKeypoints`
(fields `x, y, size, angle, response, octave, class_id`). -/
structure Keypoint where
  x : ℚ
  y : ℚ
  size : ℚ
  angle : ℚ
  response : ℚ
  octave : ℚ
  class_id : ℚ
deriving Repr, DecidableEq, Inhabited

/-- A serialized descriptor matrix, as produced by `_serializeDescriptors`:
`rows × cols` unsigned bytes in row-major order. -/
structure Descriptors where
  rows : Nat
  cols : Nat
  data : List Nat
deriving Repr, DecidableEq

/-- The result of `ORBModule.detectORB`. -/
structure DetectResult where
  keypoints : List Keypoint
  descriptors : Option Descriptors
  width : ℚ
  height : ℚ
deriving Repr, DecidableEq

/-- Base64-encoded descriptors as stored in the exported JSON
(`{rows, cols, data_b64}`); `data_b64` is the list of character codes of
the base64 string. -/
structure DescriptorsB64 where
  rows : Nat
  cols : Nat
  data_b64 : List Nat
deriving Repr, DecidableEq

/-- The exported features JSON of `ORBModule.exportJSON`. -/
structure FeaturesJSON where
  version : Nat
  type : String
  imageSize : SizeWH
  keypoints : List Keypoint
  descriptors : Option DescriptorsB64
deriving Repr, DecidableEq

/-- A DMatch as used by the matcher: `queryIdx` indexes the source
keypoints, `trainIdx` the target keypoints, `distance` is the Hamming
distance between the two binary descriptors. -/
structure DMatch where
  queryIdx : Nat
  trainIdx : Nat
  distance : Nat
deriving Repr, DecidableEq

/-- The value returned by `ORBModule.matchToTarget`. -/
structure MatchResult where
  «matches» : List DMatch
  homography : Option (List ℚ)
  numInliers : Nat
  inlierMask : Option (List Bool)
deriving Repr, DecidableEq

/-! ### Base64 codec (`ORBModule._u8ToB64` / `ORBModule._b64ToU8`)

`_u8ToB64` turns the byte array into a latin-1 binary string (chunked
`String.fromCharCode`) and calls `btoa`; `_b64ToU8` calls `atob` and reads
the character codes back.  The net effect modelled here is standard base64
over the byte list, with `=` (code 61) padding. -/

/-- Character code of the base64 alphabet entry for a 6-bit value. -/
def b64enc (v : Nat) : Nat :=
  if v < 26 then 65 + v
  else if v < 52 then 71 + v
  else if v < 62 then v - 4
  else if v = 62 then 43
  else 47

/-- 6-bit value of a base64 alphabet character code. -/
def b64dec (c : Nat) : Nat :=
  if 65 ≤ c ∧ c ≤ 90 then c - 65
  else if 97 ≤ c ∧ c ≤ 122 then c - 71
  else if 48 ≤ c ∧ c ≤ 57 then c + 4
  else if c = 43 then 62
  else if c = 47 then 63
  else 0

/-- `ORBModule._u8ToB64`: base64-encode a byte list (result is the list of
character codes, `61` being the padding character). -/
def u8ToB64 : List Nat → List Nat
  | [] => []
  | [a] => [b64enc (a / 4), b64enc (a % 4 * 16), 61, 61]
  | [a, b] => [b64enc (a / 4), b64enc (a % 4 * 16 + b / 16), b64enc (b % 16 * 4), 61]
  | a :: b :: c :: rest =>
      b64enc (a / 4) :: b64enc (a % 4 * 16 + b / 16) ::
      b64enc (b % 16 * 4 + c / 64) :: b64enc (c % 64) :: u8ToB64 rest

/-- `ORBModule._b64ToU8`: decode a base64 character-code list back to bytes. -/
def b64ToU8 : List Nat → List Nat
  | c0 :: c1 :: c2 :: c3 :: rest =>
      if c2 = 61 then
        [b64dec c0 * 4 + b64dec c1 / 16]
      else if c3 = 61 then
        [b64dec c0 * 4 + b64dec c1 / 16, b64dec c1 % 16 * 16 + b64dec c2 / 4]
      else
        (b64dec c0 * 4 + b64dec c1 / 16) :: (b64dec c1 % 16 * 16 + b64dec c2 / 4) ::
        (b64dec c2 % 4 * 64 + b64dec c3) :: b64ToU8 rest
  | _ => []

/-! ### Export / import (`ORBModule.exportJSON` / `ORBModule.importJSON`) -/

/-- `ORBModule.exportJSON`: normalize keypoint positions to `[0,1]` by the
image size and base64-encode the descriptors. -/
def exportJSON (d : DetectResult) : FeaturesJSON :=
  { version := 1
    type := "ORB"
    imageSize := ⟨d.width, d.height⟩
    keypoints := d.keypoints.map fun kp =>
      { kp with x := kp.x / d.width, y := kp.y / d.height }
    descriptors := d.descriptors.map fun ds =>
      ⟨ds.rows, ds.cols, u8ToB64 ds.data⟩ }

/-- `ORBModule.importJSON`: validate the `type` tag and decode the
descriptors; keypoints are kept as stored (normalized). -/
def importJSON (obj : FeaturesJSON) : Except String DetectResult :=
  if obj.type ≠ "ORB" then .error "Invalid features JSON"
  else .ok
    { width := obj.imageSize.width
      height := obj.imageSize.height
      keypoints := obj.keypoints
      descriptors := obj.descriptors.map fun ds =>
        ⟨ds.rows, ds.cols, b64ToU8 ds.data_b64⟩ }

/-! ### Brute-force Hamming matcher (`ORBModule.matchToTarget`, steps 9-11)

`cv.BFMatcher(cv.NORM_HAMMING).knnMatch(src, tgt, knn, 2)` is exact
brute-force 2-nearest-neighbour search under Hamming distance (the spec
fixes brute-force exactness as the correctness baseline), so it is
implemented here rather than parameterized. -/

/-- Number of set bits of a byte. -/
def bytePopcount (n : Nat) : Nat :=
  (List.range 8).foldl (fun a i => a + (if n.testBit i then 1 else 0)) 0

/-- Hamming distance between two descriptor rows (bytes). -/
def hammingDist (a b : List Nat) : Nat :=
  (List.zipWith (fun x y => bytePopcount (Nat.xor x y)) a b).sum

/-- The two nearest target rows for one query row, sorted by distance
(ties keep the earlier target index), as one entry of the `knnMatch`
result. -/
def best2 (qIdx : Nat) (q : List Nat) (tgt : List (List Nat)) : List DMatch :=
  let step := fun (st : Option DMatch × Option DMatch) (p : Nat × List Nat) =>
    let m : DMatch := ⟨qIdx, p.1, hammingDist q p.2⟩
    match st with
    | (none, _) => (some m, none)
    | (some b, none) =>
        if m.distance < b.distance then (some m, some b) else (some b, some m)
    | (some b, some s) =>
        if m.distance < b.distance then (some m, some b)
        else if m.distance < s.distance then (some b, some m)
        else (some b, some s)
  match tgt.enum.foldl step (none, none) with
  | (some b, some s) => [b, s]
  | (some b, none) => [b]
  | (none, _) => []

/-- `bf.knnMatch(srcDesc, targetDescriptors, knn, 2)`: one (possibly short)
candidate list per source descriptor row. -/
def knnMatch2 (src tgt : List (List Nat)) : List (List DMatch) :=
  src.enum.map fun p => best2 p.1 p.2 tgt

/-- The ratio-test loop of `matchToTarget` (step 11): keep the best match
of each candidate pair iff `m.distance < ratio * n.distance`. -/
def goodMatches (knn : List (List DMatch)) (rat : ℚ) : List DMatch :=
  knn.filterMap fun vec =>
    match vec with
    | m :: n :: _ =>
        if (m.distance : ℚ) < rat * (n.distance : ℚ) then some m else none
    | _ => none

/-- `cv.matFromArray(rows, cols, cv.CV_8U, data)` viewed as its list of
rows (row-major). -/
def matRows (rows cols : Nat) (data : List Nat) : List (List Nat) :=
  (List.range rows).map fun i => (List.range cols).map fun j => data.getD (i * cols + j) 0

/-- `cv.countNonZero` on a mask byte list. -/
def countNonZero (mask : List Nat) : Nat :=
  (mask.filter fun v => v ≠ 0).length

/-- Source features as consumed by `matchToTarget`: descriptors may carry
raw bytes (`data`) or only the base64 field, and `imageSize` may be
absent (the code falls back to the target size via `?? targetMat.cols`). -/
structure SourceDescriptors where
  rows : Nat
  cols : Nat
  dataU8 : Option (List Nat)
  data_b64 : List Nat
deriving Repr, DecidableEq

/-- The `sourceJson` argument of `matchToTarget`. -/
structure SourceFeatures where
  imageSize : Option SizeWH
  keypoints : List Keypoint
  descriptors : Option SourceDescriptors
deriving Repr, DecidableEq

/-- The homography-estimation block of `matchToTarget` (steps 12-13): with
at least 4 good matches, de-normalize the matched source keypoints, run
RANSAC (the external `cv.findHomography` parameter `findH`, returning the
matrix data — `[]` when the matrix is empty — and the mask bytes), and
keep the matrix/inlier data only when the matrix is nonempty. -/
def estimateFromGood (findH : List Pt → List Pt → ℚ → List ℚ × List Nat)
    (sourceJson : SourceFeatures) (targetKps : List Keypoint)
    (targetSize : SizeWH) (ransacThresh : ℚ) (good : List DMatch) : MatchResult :=
  if 4 ≤ good.length then
    let srcW := match sourceJson.imageSize with
      | some s => s.width
      | none => targetSize.width
    let srcH := match sourceJson.imageSize with
      | some s => s.height
      | none => targetSize.height
    let srcPts := good.map fun m =>
      let sN := sourceJson.keypoints.getD m.queryIdx default
      Pt.mk (sN.x * srcW) (sN.y * srcH)
    let dstPts := good.map fun m =>
      let t := targetKps.getD m.trainIdx default
      Pt.mk t.x t.y
    let hm := findH srcPts dstPts ransacThresh
    if hm.1 = [] then
      ⟨good, none, 0, none⟩
    else
      ⟨good, some hm.1, countNonZero hm.2, some (hm.2.map fun v => v ≠ 0)⟩
  else
    ⟨good, none, 0, none⟩

/-- `ORBModule.matchToTarget`.  External collaborators become parameters:
`findH` is `cv.findHomography(srcPts, dstPts, cv.RANSAC, thresh, mask)`;
`targetDesc`/`targetKps` are the output of `orb.detectAndCompute` on the
target image; `targetSize` is the target Mat dimensions. -/
def matchToTarget (findH : List Pt → List Pt → ℚ → List ℚ × List Nat)
    (sourceJson : SourceFeatures) (targetDesc : List (List Nat))
    (targetKps : List Keypoint) (targetSize : SizeWH)
    (rat ransacThresh : ℚ) : Except String MatchResult :=
  match sourceJson.descriptors with
  | none => .error "Invalid features JSON: missing descriptors"
  | some d =>
    if d.rows = 0 ∨ d.cols = 0 then .error "Invalid features JSON: missing descriptors"
    else
      let srcU8 := match d.dataU8 with
        | some u => u
        | none => b64ToU8 d.data_b64
      let srcDesc := matRows d.rows d.cols srcU8
      let knn := knnMatch2 srcDesc targetDesc
      let good := goodMatches knn rat
      .ok (estimateFromGood findH sourceJson targetKps targetSize ransacThresh good)

/-! ### PoseTransform (`src/PoseTransform.js`) -/

/-- The `method` argument (`'homography'` or `'affine'`). -/
inductive Method where
  | homography
  | affine
deriving Repr, DecidableEq

/-- `PoseTransform.computeTransform(srcLandmarks, dstLandmarks, srcSize,
method)`.  The estimators `cv.findHomography(·, ·, cv.RANSAC)` and
`cv.estimateAffine2D` are external collaborators passed as `findH` /
`findA` (returning matrix data, `[]` for an empty matrix). -/
def computeTransform (findH findA : List Pt → List Pt → List ℚ)
    (srcLandmarks dstLandmarks : List Pt) (srcSize : SizeWH)
    (method : Method) : Except String (List ℚ) :=
  if srcLandmarks.length ≠ dstLandmarks.length ∨
      srcLandmarks.length < (if method = .homography then 4 else 3) then
    .error "Insufficient or mismatched landmark pairs"
  else
    let srcPts := srcLandmarks.map fun lm => Pt.mk (lm.x * srcSize.width) (lm.y * srcSize.height)
    let dstPts := dstLandmarks.map fun lm => Pt.mk lm.x lm.y
    match method with
    | .homography => .ok (findH srcPts dstPts)
    | .affine => .ok (findA srcPts dstPts)

/-- Modelled from the spec: `cv.perspectiveTransform` is an external
OpenCV.js call; §4.4 fixes its contract — for each input point `(x,y)`
compute `(x', y', w') = H · (x, y, 1)` and output `(x'/w', y'/w')`, with a
NaN (here `none`) result for a point whose `w'` is zero; an invalid
(non-3×3) matrix fails the library's assertion and throws.  Points travel
as a flat interleaved coordinate list, as in the `CV_32FC2` data buffer. -/
def projFlat (M : List ℚ) : List ℚ → List (Option ℚ)
  | x :: y :: rest =>
      let wp := M.getD 6 0 * x + M.getD 7 0 * y + M.getD 8 0
      (if wp = 0 then none else some ((M.getD 0 0 * x + M.getD 1 0 * y + M.getD 2 0) / wp)) ::
      (if wp = 0 then none else some ((M.getD 3 0 * x + M.getD 4 0 * y + M.getD 5 0) / wp)) ::
      projFlat M rest
  | _ => []

/-- Modelled from the spec: entry point of the external
`cv.perspectiveTransform(ptsMat, outMat, M)`; rejects a matrix that is not
3×3 (OpenCV assertion), otherwise projects every point of the flat buffer. -/
def perspectiveTransformFlat (M : List ℚ) (pts : List ℚ) :
    Except String (List (Option ℚ)) :=
  if M.length = 9 then .ok (projFlat M pts) else .error "perspectiveTransform assertion failed"

/-- Modelled from the spec: the external `cv.transform` (affine case),
2×3 matrix, no homogeneous division. -/
def affineTransformFlat (M : List ℚ) (pts : List ℚ) :
    Except String (List (Option ℚ)) :=
  if M.length = 6 then .ok (projAffine M pts)
  else .error "transform assertion failed"
where
  projAffine (M : List ℚ) : List ℚ → List (Option ℚ)
    | x :: y :: rest =>
        some (M.getD 0 0 * x + M.getD 1 0 * y + M.getD 2 0) ::
        some (M.getD 3 0 * x + M.getD 4 0 * y + M.getD 5 0) ::
        projAffine M rest
    | _ => []

/-- Flat interleaved coordinate buffer of a landmark list, denormalized by
`srcSize` (the `pts` array built by the push loop of `transformLandmarks`). -/
def flatPts : List Pt → SizeWH → List ℚ
  | [], _ => []
  | lm :: rest, srcSize =>
      lm.x * srcSize.width :: lm.y * srcSize.height :: flatPts rest srcSize

/-- `PoseTransform.transformLandmarks(landmarks, srcSize, M, method)`:
denormalize, run the (modelled) OpenCV transform on the flat buffer, then
read pairs back out of `outMat.data32F` by index. -/
def transformLandmarks (landmarks : List Pt) (srcSize : SizeWH) (M : List ℚ)
    (method : Method) : Except String (List (Option ℚ × Option ℚ)) :=
  let pts := flatPts landmarks srcSize
  let out := match method with
    | .homography => perspectiveTransformFlat M pts
    | .affine => affineTransformFlat M pts
  match out with
  | .error e => .error e
  | .ok outData =>
      .ok ((List.range landmarks.length).map fun i =>
        (outData.getD (i * 2) none, outData.getD (i * 2 + 1) none))

/-! ### Crop tracker (`src/pose/pose_module.js` `processFrame`) -/

/-- A pose landmark `{x, y, z, visibility}`. -/
structure Lm where
  x : ℚ
  y : ℚ
  z : ℚ
  visibility : ℚ
deriving Repr, DecidableEq

/-- The crop rectangle `{left, top, width, height}`. -/
structure CropRect where
  left : ℚ
  top : ℚ
  width : ℚ
  height : ℚ
deriving Repr, DecidableEq

/-- One stored entry of `poseResults` (the `frameUrl` data-URL field is
DOM output and is not modelled). -/
structure PoseFrame where
  time : ℚ
  landmarks : List Lm
  cropRect : Option CropRect
deriving Repr, DecidableEq

/-- JavaScript `Math.round`: round half toward positive infinity,
`Math.round(x) = floor(x + 1/2)`. -/
def jsRound (q : ℚ) : ℤ := (q + 1 / 2).floor

/-- The crop-recenter block of `processFrame` (pose_module.js lines
139-164): if both hip landmarks (indices 23, 24) exist, recenter the crop
on the hip midpoint converted to full-frame coordinates, rounding and then
clamping `left`/`top`; otherwise leave the crop unchanged. -/
def recenterCrop (c : CropRect) (landmarkSet : List Lm)
    (frameWidth frameHeight : ℚ) : CropRect :=
  match landmarkSet[23]?, landmarkSet[24]? with
  | some leftHip, some rightHip =>
      let centerX_cropped := (leftHip.x + rightHip.x) / 2
      let centerY_cropped := (leftHip.y + rightHip.y) / 2
      let centerX_original := c.left + centerX_cropped * c.width
      let centerY_original := c.top + centerY_cropped * c.height
      let left1 : ℚ := max 0 (jsRound (centerX_original - c.width / 2) : ℚ)
      let top1 : ℚ := max 0 (jsRound (centerY_original - c.height / 2) : ℚ)
      { c with
        left := min left1 (frameWidth - c.width)
        top := min top1 (frameHeight - c.height) }
  | _, _ => c

/-- One iteration of `processFrame`: given the mutable `crop` state and the
detector output `result.landmarks` for this frame, produce the `PoseFrame`
pushed onto `poseResults` and the crop for the next frame.  The detector
(MediaPipe `poseLandmarker.detect`) is external; its output enters as
`resultLandmarks`. -/
def processFrameStep (crop : Option CropRect) (t : ℚ)
    (frameWidth frameHeight : ℚ) (resultLandmarks : List (List Lm)) :
    PoseFrame × Option CropRect :=
  let cropForThisFrame := crop
  let offsetLandmarks :=
    match cropForThisFrame, resultLandmarks.getLast? with
    | some c, some landmarkSet =>
        landmarkSet.map fun lm =>
          { lm with x := lm.x * c.width + c.left, y := lm.y * c.height + c.top }
    | _, _ => []
  let nextCrop :=
    match crop, resultLandmarks.head? with
    | some c, some landmarkSet => some (recenterCrop c landmarkSet frameWidth frameHeight)
    | _, _ => crop
  (⟨t, offsetLandmarks, cropForThisFrame⟩, nextCrop)

/-- The extraction session: fold `processFrameStep` over the sampled
frames (timestamp paired with detector output), starting from the
user-supplied crop (or `null`), collecting `poseResults`. -/
def processSession (inputs : List (ℚ × List (List Lm)))
    (crop0 : Option CropRect) (frameWidth frameHeight : ℚ) : List PoseFrame :=
  (inputs.foldl
    (fun st inp =>
      let r := processFrameStep st.2 inp.1 frameWidth frameHeight inp.2
      (st.1 ++ [r.1], r.2))
    (([] : List PoseFrame), crop0)).1

/-! ### The match-button call chain (`src/unnamed/part_005`, orb_main.js)

`btnMatch` runs `computeTransformationMatrix` and then applies the result
to every stored pose frame.  These definitions model that caller chain. -/

/-- `matchesToArray(matches, keypointsA, keypointsB, imageSizeA)`
(orb utils): build pixel-coordinate point arrays for the matched pairs
(source side denormalized by `imageSizeA`), or `null` when there are fewer
than 4 matches. -/
def matchesToArray (ms : List DMatch) (keypointsA keypointsB : List Keypoint)
    (imageSizeA : SizeWH) : Option (List Pt × List Pt) :=
  let matchedSrc := ms.map fun m =>
    let s := keypointsA.getD m.queryIdx default
    Pt.mk (s.x * imageSizeA.width) (s.y * imageSizeA.height)
  let matchedDst := ms.map fun m =>
    let t := keypointsB.getD m.trainIdx default
    Pt.mk t.x t.y
  if matchedSrc.length < 4 ∨ matchedDst.length < 4 then none
  else some (matchedSrc, matchedDst)

/-- `PoseTransform.computeTransform(srcLandmarks, dstLandmarks, method)`
(the variant in `src/unnamed/part_008` that takes already-pixel points,
no `srcSize`); the external estimators are parameters as before. -/
def computeTransformNoSize (findH findA : List Pt → List Pt → List ℚ)
    (srcLandmarks dstLandmarks : List Pt) (method : Method) :
    Except String (List ℚ) :=
  if srcLandmarks.length ≠ dstLandmarks.length ∨
      srcLandmarks.length < (if method = .homography then 4 else 3) then
    .error "Insufficient or mismatched landmark pairs"
  else
    match method with
    | .homography => .ok (findH srcLandmarks dstLandmarks)
    | .affine => .ok (findA srcLandmarks dstLandmarks)

/-- `computeTransformationMatrix(matchResult, offsetKeypointsB, source)`
(`src/unnamed/part_005` lines 158-202).  The body is a
`try {...} catch {...} finally { return transformMat; }`: by JavaScript
semantics the `return` inside `finally` overrides every earlier exit, so
the function always returns the current value of `transformMat` — in
particular the guard
`if (!transformMat || transformMat.empty()) { console.error(...); return; }`
only logs: its early return is overridden and the empty matrix is still
returned.  `none` models the `null`/`undefined`-matrix outcomes (a throw
caught with `transformMat` still `null`). -/
def computeTransformationMatrix (findH : List Pt → List Pt → List ℚ)
    (matchResultMatches : Option (List DMatch))
    (kpA offsetKeypointsB : List Keypoint) (sourceImageSize : SizeWH) :
    Option (List ℚ) :=
  match matchResultMatches with
  | none => none
  | some ms =>
    if ms.length < 4 then none
    else
      match matchesToArray ms kpA offsetKeypointsB sourceImageSize with
      | none => none
      | some (srcMatches, dstMatches) =>
        match computeTransformNoSize findH (fun _ _ => []) srcMatches dstMatches .homography with
        | .error _ => none
        | .ok m => some m

/-- One frame of the apply loop: flat buffer from the raw landmark pixel
coordinates, (modelled) `cv.perspectiveTransform`, indexed read-back —
the per-frame body of the `transformLandmarks` variant used by the
`btnMatch` apply step. -/
def transformLandmarksFrame (landmarks : List Pt) (M : List ℚ) :
    Except String (List (Option ℚ × Option ℚ)) :=
  let pts := landmarks.foldr (fun lm acc => lm.x :: lm.y :: acc) []
  match perspectiveTransformFlat M pts with
  | .error e => .error e
  | .ok outData =>
      .ok ((List.range landmarks.length).map fun i =>
        (outData.getD (i * 2) none, outData.getD (i * 2 + 1) none))

/-- The apply step of the `btnMatch` handler (`part_005` lines 466-488):
for each nonempty stored pose frame call the landmark transform applier
with `transformMat` as returned by `computeTransformationMatrix` — there
is no emptiness or nullness check between the two steps, so a degenerate
matrix reaches the applier and only the matrix library's thrown assertion
(caught into an alert, modelled as `.error`) stops the batch. -/
def applyTransformLoop (transformMat : Option (List ℚ))
    (poseLandmarksAllFrames : List (List Pt)) :
    Except String (List (List (Option ℚ × Option ℚ))) :=
  poseLandmarksAllFrames.foldlM
    (fun acc frameLandmarks =>
      if frameLandmarks.isEmpty then .ok acc
      else
        match transformMat with
        | none => .error "perspectiveTransform assertion failed"
        | some m =>
          match transformLandmarksFrame frameLandmarks m with
          | .error e => .error e
          | .ok transformed => .ok (acc ++ [transformed]))
    []

/-- The transform phase of the `btnMatch` click handler: compute the
transformation matrix from the match result, then apply it to all stored
pose frames. -/
def btnMatchTransformPhase (findH : List Pt → List Pt → List ℚ)
    (matchResultMatches : Option (List DMatch))
    (kpA offsetKeypointsB : List Keypoint) (sourceImageSize : SizeWH)
    (poseLandmarksAllFrames : List (List Pt)) :
    Except String (List (List (Option ℚ × Option ℚ))) :=
  applyTransformLoop
    (computeTransformationMatrix findH matchResultMatches kpA offsetKeypointsB sourceImageSize)
    poseLandmarksAllFrames

/-! ### Spec-side formulations used for comparison -/

/-- Stated from the spec claim (C4), for comparison with `recenterCrop`:
`newCrop.x = full.x - crop.width/2`, clamped to `[0, frameWidth - crop.width]`,
with no rounding. -/
def recenterLeftSpec (c : CropRect) (anchorX : ℚ) (frameWidth : ℚ) : ℚ :=
  min (max 0 (c.left + anchorX * c.width - c.width / 2)) (frameWidth - c.width)

/-- Clamp `v` into the interval `[lo, hi]`. -/
def clampQ (lo hi v : ℚ) : ℚ := max lo (min v hi)

/-! ### Helper lemmas -/

/-- The max-then-min clamping order of the source agrees with clamping into
`[lo, hi]` whenever the interval is nonempty. -/
theorem min_max_eq_clampQ (lo hi v : ℚ) (h : lo ≤ hi) :
    min (max lo v) hi = clampQ lo hi v := by
  unfold clampQ
  rcases le_total v lo with h1 | h1 <;> rcases le_total v hi with h2 | h2 <;>
    simp [max_def, min_def] <;> split_ifs <;> linarith

/-- With no target descriptors there is never a second-nearest neighbour,
so the ratio test keeps nothing. -/
theorem goodMatches_knnMatch2_nil (src : List (List Nat)) (rat : ℚ) :
    goodMatches (knnMatch2 src []) rat = [] := by
  unfold knnMatch2 goodMatches
  rw [List.filterMap_map, List.filterMap_eq_nil_iff]
  intro p _
  rfl

/-- The `matches` field of a `matchToTarget` result is always the good-match
list handed to the estimation block. -/
theorem estimateFromGood_matches (findH : List Pt → List Pt → ℚ → List ℚ × List Nat)
    (sourceJson : SourceFeatures) (targetKps : List Keypoint)
    (targetSize : SizeWH) (thresh : ℚ) (good : List DMatch) :
    (estimateFromGood findH sourceJson targetKps targetSize thresh good).«matches» = good := by
  unfold estimateFromGood
  repeat' split
  all_goals (first | rfl | (simp only []; split <;> rfl))

/-- With fewer than 4 good matches the estimation block returns a `null`
homography. -/
theorem estimateFromGood_small (findH : List Pt → List Pt → ℚ → List ℚ × List Nat)
    (sourceJson : SourceFeatures) (targetKps : List Keypoint)
    (targetSize : SizeWH) (thresh : ℚ) (good : List DMatch)
    (h : good.length < 4) :
    (estimateFromGood findH sourceJson targetKps targetSize thresh good).homography = none := by
  unfold estimateFromGood
  rw [if_neg (by omega)]

/-! ### Claim C1 -/

/-- Claim C1: every homography-estimation call with fewer than 4
correspondences fails with the insufficient-landmarks error rather than
computing a transform: `computeTransform` throws
`'Insufficient or mismatched landmark pairs'` (whatever the external
estimator would do), and inside `matchToTarget` fewer than 4 good matches
leave the returned `homography` field `null`. -/
theorem claim_C1_insufficient_correspondences :
    (∀ (findH findA : List Pt → List Pt → List ℚ) (src dst : List Pt) (sz : SizeWH),
      src.length < 4 →
      computeTransform findH findA src dst sz .homography =
        .error "Insufficient or mismatched landmark pairs") ∧
    (∀ (findH : List Pt → List Pt → ℚ → List ℚ × List Nat)
        (sourceJson : SourceFeatures) (targetDesc : List (List Nat))
        (targetKps : List Keypoint) (targetSize : SizeWH) (rat thresh : ℚ)
        (r : MatchResult),
      matchToTarget findH sourceJson targetDesc targetKps targetSize rat thresh = .ok r →
      r.«matches».length < 4 → r.homography = none) := by
  constructor
  · intro findH findA src dst sz h
    unfold computeTransform
    rw [if_pos]
    by_cases he : src.length = dst.length
    · right
      simpa using h
    · left
      exact he
  · intro findH sourceJson targetDesc targetKps targetSize rat thresh r hok hlt
    unfold matchToTarget at hok
    split at hok
    · exact absurd hok (by simp)
    · split at hok
      · exact absurd hok (by simp)
      · injection hok with h2
        subst h2
        rw [estimateFromGood_matches] at hlt
        exact estimateFromGood_small _ _ _ _ _ _ hlt

/-- Witness for C1: three correspondences yield the error, and a concrete
match run with fewer than 4 good matches returns a `null` homography. -/
theorem claim_C1_insufficient_correspondences_witness :
    computeTransform (fun _ _ => []) (fun _ _ => [])
        [Pt.mk 0 0, Pt.mk 1 0, Pt.mk 0 1] [Pt.mk 5 5, Pt.mk 6 5, Pt.mk 5 6]
        ⟨100, 100⟩ .homography = .error "Insufficient or mismatched landmark pairs" ∧
    (MatchResult.mk [] none 0 none).homography = none :=
  ⟨claim_C1_insufficient_correspondences.1 _ _ _ _ _ (by decide),
   claim_C1_insufficient_correspondences.2 (fun _ _ _ => ([], []))
     ⟨some ⟨1, 1⟩, [], some ⟨1, 1, some [0], []⟩⟩ [] [] ⟨1, 1⟩ (3 / 4) 3 _
     rfl (by decide)⟩

/-! ### Claim C3 -/

/-- Counterexample to C3 as stated: a source set with zero keypoints (its
descriptor matrix has zero rows) does not give an empty match list —
`matchToTarget` throws `'Invalid features JSON: missing descriptors'`
(`!sourceJson?.descriptors?.rows` is true for `rows === 0`). -/
theorem claim_C3_counterexample :
    matchToTarget (fun _ _ _ => ([], [])) ⟨some ⟨4, 4⟩, [], some ⟨0, 32, some [], []⟩⟩
        [] [] ⟨4, 4⟩ (3 / 4) 3 =
      .error "Invalid features JSON: missing descriptors" := rfl

/-- Amended C3: when the TARGET set has zero keypoints (so a zero-row
descriptor matrix), the match returns an empty match list and no error;
a source set with missing or zero-row/zero-column descriptors instead
raises the invalid-JSON error. -/
theorem claim_C3_empty_target_empty_matches
    (findH : List Pt → List Pt → ℚ → List ℚ × List Nat)
    (sourceJson : SourceFeatures) (targetKps : List Keypoint)
    (targetSize : SizeWH) (rat thresh : ℚ) (d : SourceDescriptors)
    (hd : sourceJson.descriptors = some d) (hr : d.rows ≠ 0) (hc : d.cols ≠ 0) :
    matchToTarget findH sourceJson [] targetKps targetSize rat thresh =
      .ok ⟨[], none, 0, none⟩ := by
  simp only [matchToTarget, hd]
  rw [if_neg (by tauto)]
  simp only [goodMatches_knnMatch2_nil]
  rfl

/-- Witness for the amended C3 at a concrete input. -/
theorem claim_C3_empty_target_empty_matches_witness :
    matchToTarget (fun _ _ _ => ([], [])) ⟨some ⟨8, 8⟩, [], some ⟨1, 1, some [7], []⟩⟩
        [] [] ⟨8, 8⟩ (3 / 4) 3 = .ok ⟨[], none, 0, none⟩ :=
  claim_C3_empty_target_empty_matches _ _ _ _ _ _ _ rfl (by decide) (by decide)

/-! ### Claim C2 -/

/-- Claim C2 concerns the code at a failing input: with four ratio-test
survivors in degenerate position, `cv.findHomography` returns an empty
matrix (the estimator parameter returns `[]`).  The source's guard
`if (!transformMat || transformMat.empty()) { console.error(...); return; }`
is overridden by `finally { return transformMat; }`, so
`computeTransformationMatrix` still hands the empty matrix to its caller
(first conjunct), and the `btnMatch` apply step then invokes the landmark
transform applier with that degenerate matrix — only the matrix library's
thrown assertion, caught into an alert, stops the batch (second
conjunct). -/
theorem claim_C2_degenerate_matrix_reaches_applier :
    computeTransformationMatrix (fun _ _ => [])
        (some [⟨0, 0, 0⟩, ⟨1, 1, 0⟩, ⟨2, 2, 0⟩, ⟨3, 3, 0⟩])
        [⟨0, 0, 0, 0, 0, 0, 0⟩, ⟨1, 0, 0, 0, 0, 0, 0⟩,
         ⟨2, 0, 0, 0, 0, 0, 0⟩, ⟨3, 0, 0, 0, 0, 0, 0⟩]
        [⟨0, 1, 0, 0, 0, 0, 0⟩, ⟨1, 1, 0, 0, 0, 0, 0⟩,
         ⟨2, 1, 0, 0, 0, 0, 0⟩, ⟨3, 1, 0, 0, 0, 0, 0⟩]
        ⟨100, 100⟩ = some [] ∧
    btnMatchTransformPhase (fun _ _ => [])
        (some [⟨0, 0, 0⟩, ⟨1, 1, 0⟩, ⟨2, 2, 0⟩, ⟨3, 3, 0⟩])
        [⟨0, 0, 0, 0, 0, 0, 0⟩, ⟨1, 0, 0, 0, 0, 0, 0⟩,
         ⟨2, 0, 0, 0, 0, 0, 0⟩, ⟨3, 0, 0, 0, 0, 0, 0⟩]
        [⟨0, 1, 0, 0, 0, 0, 0⟩, ⟨1, 1, 0, 0, 0, 0, 0⟩,
         ⟨2, 1, 0, 0, 0, 0, 0⟩, ⟨3, 1, 0, 0, 0, 0, 0⟩]
        ⟨100, 100⟩ [[Pt.mk 1 1]] =
      .error "perspectiveTransform assertion failed" :=
  ⟨rfl, rfl⟩

/-! ### Crop-tracker helper lemmas -/

/-- Recentering never touches the crop width. -/
theorem recenterCrop_width (c : CropRect) (ls : List Lm) (fw fh : ℚ) :
    (recenterCrop c ls fw fh).width = c.width := by
  unfold recenterCrop
  repeat' split
  all_goals rfl

/-- Recentering never touches the crop height. -/
theorem recenterCrop_height (c : CropRect) (ls : List Lm) (fw fh : ℚ) :
    (recenterCrop c ls fw fh).height = c.height := by
  unfold recenterCrop
  repeat' split
  all_goals rfl

/-- `jsRound` is the integer floor of `q + 1/2`. -/
theorem jsRound_eq_floor (q : ℚ) : jsRound q = ⌊q + 1 / 2⌋ := rfl

/-- Bounds of the source's max-then-min clamping step. -/
theorem clamp_step_bounds (v w fw : ℚ) (h : w ≤ fw) :
    0 ≤ min (max 0 v) (fw - w) ∧ min (max 0 v) (fw - w) + w ≤ fw := by
  constructor
  · exact le_min (le_max_left _ _) (by linarith)
  · have h2 := min_le_right (max 0 v) (fw - w)
    linarith

/-- A step with no crop rectangle stores empty landmarks and a `null`
crop, and keeps the crop `null`. -/
theorem processFrameStep_none (t fw fh : ℚ) (res : List (List Lm)) :
    processFrameStep none t fw fh res = (⟨t, [], none⟩, none) := rfl

/-- Closed form of the extraction fold when the crop starts (and hence
stays) `null`. -/
theorem processSession_foldl_none (fw fh : ℚ) :
    ∀ (inputs : List (ℚ × List (List Lm))) (acc : List PoseFrame),
      (inputs.foldl
        (fun st inp =>
          let r := processFrameStep st.2 inp.1 fw fh inp.2
          (st.1 ++ [r.1], r.2))
        (acc, (none : Option CropRect))).1 =
      acc ++ inputs.map (fun inp => (⟨inp.1, [], none⟩ : PoseFrame))
  | [], acc => by simp
  | inp :: rest, acc => by
      simp only [List.foldl_cons, List.map_cons]
      show (rest.foldl _ (acc ++ [(⟨inp.1, [], none⟩ : PoseFrame)], none)).1 = _
      rw [processSession_foldl_none fw fh rest (acc ++ [(⟨inp.1, [], none⟩ : PoseFrame)])]
      simp

/-! ### Claim C4 -/

/-- Counterexample to C4 as stated: the code rounds the recentred position
with `Math.round` before clamping, so the stored position differs from the
claim's un-rounded `full.x - crop.width/2` formula — here hips at
crop-normalized x = 0.603 in a 100-wide crop at 0 give 10 (rounded from
10.3), not 10.3. -/
theorem claim_C4_counterexample :
    (recenterCrop ⟨0, 0, 100, 100⟩
        (List.replicate 23 ⟨0, 0, 0, 0⟩ ++
          [⟨603 / 1000, 1 / 2, 0, 0⟩, ⟨603 / 1000, 1 / 2, 0, 0⟩])
        1920 1080).left ≠
      recenterLeftSpec ⟨0, 0, 100, 100⟩ ((603 / 1000 + 603 / 1000) / 2) 1920 := by
  have h23 : (List.replicate 23 (⟨0, 0, 0, 0⟩ : Lm) ++
      [(⟨603 / 1000, 1 / 2, 0, 0⟩ : Lm), ⟨603 / 1000, 1 / 2, 0, 0⟩])[23]? =
      some ⟨603 / 1000, 1 / 2, 0, 0⟩ := rfl
  have h24 : (List.replicate 23 (⟨0, 0, 0, 0⟩ : Lm) ++
      [(⟨603 / 1000, 1 / 2, 0, 0⟩ : Lm), ⟨603 / 1000, 1 / 2, 0, 0⟩])[24]? =
      some ⟨603 / 1000, 1 / 2, 0, 0⟩ := rfl
  simp only [recenterCrop, recenterLeftSpec, h23, h24]
  have hjr : jsRound ((0 : ℚ) + (603 / 1000 + 603 / 1000) / 2 * 100 - 100 / 2) = 10 := by
    rw [jsRound_eq_floor, Int.floor_eq_iff]
    norm_num
  rw [hjr]
  rw [max_eq_right (by norm_num), min_eq_left (by norm_num),
    max_eq_right (by norm_num), min_eq_left (by norm_num)]
  norm_num

/-- Amended C4: with both hip landmarks present, the new crop position is
the anchor (hip midpoint) converted to pixel-full space, re-centred,
ROUNDED TO THE NEAREST INTEGER (`Math.round`), and clamped to
`[0, frameWidth - crop.width]` (same for y); width and height are
unchanged. -/
theorem claim_C4_recenter_position (c : CropRect) (ls : List Lm) (fw fh : ℚ)
    (lh rh : Lm) (h23 : ls[23]? = some lh) (h24 : ls[24]? = some rh)
    (hw : c.width ≤ fw) (hh : c.height ≤ fh) :
    (recenterCrop c ls fw fh).width = c.width ∧
    (recenterCrop c ls fw fh).height = c.height ∧
    (recenterCrop c ls fw fh).left =
      clampQ 0 (fw - c.width)
        ((jsRound (c.left + (lh.x + rh.x) / 2 * c.width - c.width / 2) : ℤ) : ℚ) ∧
    (recenterCrop c ls fw fh).top =
      clampQ 0 (fh - c.height)
        ((jsRound (c.top + (lh.y + rh.y) / 2 * c.height - c.height / 2) : ℤ) : ℚ) := by
  simp only [recenterCrop, h23, h24]
  refine ⟨trivial, trivial, ?_, ?_⟩
  · exact min_max_eq_clampQ _ _ _ (by linarith)
  · exact min_max_eq_clampQ _ _ _ (by linarith)

/-- Witness for the amended C4 at the counterexample's input. -/
theorem claim_C4_recenter_position_witness :
    (recenterCrop ⟨0, 0, 100, 100⟩
        (List.replicate 23 ⟨0, 0, 0, 0⟩ ++
          [⟨603 / 1000, 1 / 2, 0, 0⟩, ⟨603 / 1000, 1 / 2, 0, 0⟩])
        1920 1080).left =
      clampQ 0 (1920 - 100)
        ((jsRound (0 + (603 / 1000 + 603 / 1000) / 2 * 100 - 100 / 2) : ℤ) : ℚ) := by
  have h := claim_C4_recenter_position ⟨0, 0, 100, 100⟩
    (List.replicate 23 ⟨0, 0, 0, 0⟩ ++
      [⟨603 / 1000, 1 / 2, 0, 0⟩, ⟨603 / 1000, 1 / 2, 0, 0⟩])
    1920 1080 ⟨603 / 1000, 1 / 2, 0, 0⟩ ⟨603 / 1000, 1 / 2, 0, 0⟩
    rfl rfl (by norm_num) (by norm_num)
  exact h.2.2.1

/-! ### Claim C5 -/

/-- Claim C5: whatever the detected anchor (hips anywhere, including the
image border, or missing), a recenter step keeps the crop inside the
frame: `0 ≤ left`, `left + width ≤ frameWidth`, and likewise vertically.
The hypotheses are the Rect invariant of the incoming crop (§3 of the
spec: the initial crop lies inside the frame). -/
theorem claim_C5_crop_clamp_invariant (c : CropRect) (ls : List Lm) (fw fh : ℚ)
    (hl : 0 ≤ c.left) (hlw : c.left + c.width ≤ fw)
    (ht : 0 ≤ c.top) (hth : c.top + c.height ≤ fh) :
    0 ≤ (recenterCrop c ls fw fh).left ∧
    (recenterCrop c ls fw fh).left + (recenterCrop c ls fw fh).width ≤ fw ∧
    0 ≤ (recenterCrop c ls fw fh).top ∧
    (recenterCrop c ls fw fh).top + (recenterCrop c ls fw fh).height ≤ fh := by
  rcases h23 : ls[23]? with _ | lh <;> rcases h24 : ls[24]? with _ | rh <;>
    simp only [recenterCrop, h23, h24]
  · exact ⟨hl, hlw, ht, hth⟩
  · exact ⟨hl, hlw, ht, hth⟩
  · exact ⟨hl, hlw, ht, hth⟩
  · refine ⟨(clamp_step_bounds _ _ _ (by linarith)).1,
      (clamp_step_bounds _ _ _ (by linarith)).2,
      (clamp_step_bounds _ _ _ (by linarith)).1,
      (clamp_step_bounds _ _ _ (by linarith)).2⟩

/-- Witness for C5 with a border anchor (hips at crop-normalized (1,1)). -/
theorem claim_C5_crop_clamp_invariant_witness :
    0 ≤ (recenterCrop ⟨0, 0, 100, 100⟩
        (List.replicate 23 ⟨0, 0, 0, 0⟩ ++ [⟨1, 1, 0, 1⟩, ⟨1, 1, 0, 1⟩])
        1920 1080).left ∧
    (recenterCrop ⟨0, 0, 100, 100⟩
        (List.replicate 23 ⟨0, 0, 0, 0⟩ ++ [⟨1, 1, 0, 1⟩, ⟨1, 1, 0, 1⟩])
        1920 1080).left +
      (recenterCrop ⟨0, 0, 100, 100⟩
        (List.replicate 23 ⟨0, 0, 0, 0⟩ ++ [⟨1, 1, 0, 1⟩, ⟨1, 1, 0, 1⟩])
        1920 1080).width ≤ 1920 ∧
    0 ≤ (recenterCrop ⟨0, 0, 100, 100⟩
        (List.replicate 23 ⟨0, 0, 0, 0⟩ ++ [⟨1, 1, 0, 1⟩, ⟨1, 1, 0, 1⟩])
        1920 1080).top ∧
    (recenterCrop ⟨0, 0, 100, 100⟩
        (List.replicate 23 ⟨0, 0, 0, 0⟩ ++ [⟨1, 1, 0, 1⟩, ⟨1, 1, 0, 1⟩])
        1920 1080).top +
      (recenterCrop ⟨0, 0, 100, 100⟩
        (List.replicate 23 ⟨0, 0, 0, 0⟩ ++ [⟨1, 1, 0, 1⟩, ⟨1, 1, 0, 1⟩])
        1920 1080).height ≤ 1080 :=
  claim_C5_crop_clamp_invariant ⟨0, 0, 100, 100⟩ _ 1920 1080
    (by norm_num) (by norm_num) (by norm_num) (by norm_num)

/-! ### Claim C6 -/

/-- Claim C6: a frame where the detector finds no person is still appended
to the session — with empty landmarks and the unchanged crop recorded —
and the crop is reused unchanged for the next frame; and whenever the
anchor (hip) landmarks are missing from the detected set, the crop is
also left unchanged. -/
theorem claim_C6_detection_failure_graceful (c : CropRect) (t fw fh : ℚ)
    (res : List (List Lm)) :
    (res = [] →
      processFrameStep (some c) t fw fh res = (⟨t, [], some c⟩, some c)) ∧
    (∀ ls, res.head? = some ls → (ls[23]? = none ∨ ls[24]? = none) →
      (processFrameStep (some c) t fw fh res).2 = some c) := by
  constructor
  · intro h
    subst h
    rfl
  · intro ls hhead hmiss
    simp only [processFrameStep, hhead]
    rcases hmiss with h | h
    · simp [recenterCrop, h]
    · rcases h23 : ls[23]? with _ | lh <;> simp [recenterCrop, h23, h]

/-- Witness for C6: an empty detection result, and a detection whose
landmark list is too short to contain the hips. -/
theorem claim_C6_detection_failure_graceful_witness :
    processFrameStep (some ⟨0, 0, 100, 100⟩) 0 1920 1080 [] =
      (⟨0, [], some ⟨0, 0, 100, 100⟩⟩, some ⟨0, 0, 100, 100⟩) ∧
    (processFrameStep (some ⟨0, 0, 100, 100⟩) 0 1920 1080
        [[⟨1 / 2, 1 / 2, 0, 1⟩]]).2 = some ⟨0, 0, 100, 100⟩ :=
  ⟨(claim_C6_detection_failure_graceful ⟨0, 0, 100, 100⟩ 0 1920 1080 []).1 rfl,
   (claim_C6_detection_failure_graceful ⟨0, 0, 100, 100⟩ 0 1920 1080
      [[⟨1 / 2, 1 / 2, 0, 1⟩]]).2 [⟨1 / 2, 1 / 2, 0, 1⟩] rfl (Or.inl rfl)⟩

/-! ### Claim C10 -/

/-- Claim C10: if the session starts with no crop rectangle, every stored
pose frame has empty landmarks and a `null` crop — even for frames where
the detector found a person — because `offsetLandmarks` is only computed
under `cropForThisFrame`. -/
theorem claim_C10_null_crop_empty_frames (inputs : List (ℚ × List (List Lm)))
    (fw fh : ℚ) :
    ∀ fr ∈ processSession inputs none fw fh, fr.landmarks = [] ∧ fr.cropRect = none := by
  intro fr hfr
  unfold processSession at hfr
  rw [processSession_foldl_none] at hfr
  simp only [List.nil_append, List.mem_map] at hfr
  obtain ⟨inp, _, heq⟩ := hfr
  rw [← heq]
  exact ⟨rfl, rfl⟩

/-- Witness for C10: one frame whose detector output does contain a person
is still stored with empty landmarks and no crop. -/
theorem claim_C10_null_crop_empty_frames_witness :
    (⟨0, [], none⟩ : PoseFrame).landmarks = [] ∧
    (⟨0, [], none⟩ : PoseFrame).cropRect = none :=
  claim_C10_null_crop_empty_frames [(0, [[⟨1 / 2, 1 / 2, 0, 1⟩]])] 1920 1080
    ⟨0, [], none⟩ (by
      have h : processSession [((0 : ℚ), [[(⟨1 / 2, 1 / 2, 0, 1⟩ : Lm)]])] none 1920 1080 =
          [⟨0, [], none⟩] := by
        unfold processSession
        rw [processSession_foldl_none]
        rfl
      rw [h]
      exact List.mem_singleton.mpr rfl)

/-! ### Claim C7 -/

/-- The ratio-test filter keeps `m` exactly when the candidate list starts
with `m` followed by a second-best `m2` with `d1 < ratio * d2`. -/
theorem ratio_keep_eq (rat : ℚ) (vec : List DMatch) (m : DMatch) :
    (match vec with
     | m1 :: n :: _ =>
         if (m1.distance : ℚ) < rat * (n.distance : ℚ) then some m1 else none
     | _ => none) = some m ↔
    ∃ m2 rest, vec = m :: m2 :: rest ∧ (m.distance : ℚ) < rat * (m2.distance : ℚ) := by
  match vec with
  | [] => simp
  | [a] => simp
  | a :: b :: rest =>
    simp only []
    constructor
    · intro h
      by_cases hc : (a.distance : ℚ) < rat * (b.distance : ℚ)
      · rw [if_pos hc] at h
        injection h with h2
        subst h2
        exact ⟨b, rest, rfl, hc⟩
      · rw [if_neg hc] at h
        cases h
    · rintro ⟨m2, r2, heq, hlt⟩
      injection heq with h1 h2
      subst h1
      injection h2 with h3 h4
      subst h3
      subst h4
      rw [if_pos hlt]

/-- A smaller ratio keeps a (pointwise) subset of the matches, so never
more of them. -/
theorem goodMatches_length_mono (knn : List (List DMatch)) (r1 r2 : ℚ) (h : r1 ≤ r2) :
    (goodMatches knn r1).length ≤ (goodMatches knn r2).length := by
  induction knn with
  | nil => simp [goodMatches]
  | cons vec rest ih =>
    unfold goodMatches at ih ⊢
    rw [List.filterMap_cons, List.filterMap_cons]
    match vec with
    | [] => simpa using ih
    | [a] => simpa using ih
    | a :: b :: tail =>
      simp only []
      by_cases h1 : (a.distance : ℚ) < r1 * (b.distance : ℚ)
      · have h2 : (a.distance : ℚ) < r2 * (b.distance : ℚ) :=
          lt_of_lt_of_le h1 (mul_le_mul_of_nonneg_right h (Nat.cast_nonneg _))
        rw [if_pos h1, if_pos h2]
        simpa using ih
      · rw [if_neg h1]
        by_cases h2 : (a.distance : ℚ) < r2 * (b.distance : ℚ)
        · rw [if_pos h2]
          simp only [List.length_cons]
          omega
        · rw [if_neg h2]
          exact ih

/-- Claim C7: for fixed descriptor sets, the good matches are exactly the
best candidates whose distance beats `ratio` times the second-best
distance, and decreasing the ratio never increases the number of good
matches. -/
theorem claim_C7_ratio_test :
    (∀ (src tgt : List (List Nat)) (rat : ℚ) (m : DMatch),
      m ∈ goodMatches (knnMatch2 src tgt) rat ↔
        ∃ vec ∈ knnMatch2 src tgt, ∃ m2 rest, vec = m :: m2 :: rest ∧
          (m.distance : ℚ) < rat * (m2.distance : ℚ)) ∧
    (∀ (src tgt : List (List Nat)) (r1 r2 : ℚ), r1 ≤ r2 →
      (goodMatches (knnMatch2 src tgt) r1).length ≤
        (goodMatches (knnMatch2 src tgt) r2).length) := by
  constructor
  · intro src tgt rat m
    rw [goodMatches, List.mem_filterMap]
    exact exists_congr fun vec => and_congr_right fun _ => ratio_keep_eq rat vec m
  · intro src tgt r1 r2 h
    exact goodMatches_length_mono _ _ _ h

/-- Witness for C7: one source descriptor against two targets at Hamming
distances 1 and 7 is kept at ratio 3/4, and ratio 1/2 keeps no more
matches than ratio 3/4. -/
theorem claim_C7_ratio_test_witness :
    (⟨0, 0, 1⟩ : DMatch) ∈ goodMatches (knnMatch2 [[1]] [[0], [255]]) (3 / 4) ∧
    (goodMatches (knnMatch2 [[1]] [[0], [255]]) (1 / 2)).length ≤
      (goodMatches (knnMatch2 [[1]] [[0], [255]]) (3 / 4)).length :=
  ⟨(claim_C7_ratio_test.1 [[1]] [[0], [255]] (3 / 4) ⟨0, 0, 1⟩).mpr
     ⟨[⟨0, 0, 1⟩, ⟨0, 1, 7⟩],
      by
        rw [show knnMatch2 [[1]] [[0], [255]] =
            [[(⟨0, 0, 1⟩ : DMatch), ⟨0, 1, 7⟩]] from rfl]
        exact List.mem_singleton.mpr rfl,
      ⟨0, 1, 7⟩, [], rfl, by norm_num⟩,
   claim_C7_ratio_test.2 [[1]] [[0], [255]] (1 / 2) (3 / 4) (by norm_num)⟩

/-! ### Claim C8 -/

/-- Decoding an alphabet character recovers the 6-bit value. -/
theorem b64dec_b64enc : ∀ v < 64, b64dec (b64enc v) = v := by decide

/-- No alphabet character is the padding character `'='` (code 61). -/
theorem b64enc_ne_61 : ∀ v < 64, b64enc v ≠ 61 := by decide

/-- Base64 round trip: decoding the encoding of any byte list gives the
bytes back. -/
theorem b64_roundtrip : ∀ (l : List Nat), (∀ x ∈ l, x < 256) →
    b64ToU8 (u8ToB64 l) = l := by
  intro l
  induction l using u8ToB64.induct with
  | case1 => intro _; rfl
  | case2 a =>
      intro hb
      have ha : a < 256 := hb a (by simp)
      simp only [u8ToB64, b64ToU8, if_true]
      rw [b64dec_b64enc _ (by omega), b64dec_b64enc _ (by omega)]
      simp only [List.cons.injEq, and_true]
      omega
  | case3 a b =>
      intro hb
      have ha : a < 256 := hb a (by simp)
      have hb2 : b < 256 := hb b (by simp)
      simp only [u8ToB64, b64ToU8, if_true]
      rw [b64dec_b64enc _ (by omega), b64dec_b64enc _ (by omega), b64dec_b64enc _ (by omega)]
      rw [if_neg (b64enc_ne_61 _ (by omega))]
      simp only [List.cons.injEq, and_true]
      exact ⟨by omega, by omega⟩
  | case4 a b c rest ih =>
      intro hb
      have ha : a < 256 := hb a (by simp)
      have hb2 : b < 256 := hb b (by simp)
      have hc : c < 256 := hb c (by simp)
      simp only [u8ToB64, b64ToU8]
      rw [if_neg (b64enc_ne_61 _ (by omega)), if_neg (b64enc_ne_61 _ (by omega))]
      rw [b64dec_b64enc _ (by omega), b64dec_b64enc _ (by omega),
        b64dec_b64enc _ (by omega), b64dec_b64enc _ (by omega)]
      rw [ih (fun x hx => hb x (by simp [hx]))]
      simp only [List.cons.injEq, and_true]
      refine ⟨by omega, by omega, by omega⟩

/-- Claim C8: importing an exported detect result succeeds and reproduces
the descriptors byte-identically (same rows, cols and data bytes) and the
keypoint positions exactly equal to the original re-normalized by the
image size (hence within any tolerance). -/
theorem claim_C8_export_import_roundtrip (d : DetectResult)
    (hbytes : ∀ ds, d.descriptors = some ds → ∀ x ∈ ds.data, x < 256) :
    importJSON (exportJSON d) = .ok
      { width := d.width
        height := d.height
        keypoints := d.keypoints.map fun kp =>
          { kp with x := kp.x / d.width, y := kp.y / d.height }
        descriptors := d.descriptors } := by
  have hdesc : (d.descriptors.map fun ds =>
      (⟨ds.rows, ds.cols, u8ToB64 ds.data⟩ : DescriptorsB64)).map
        (fun ds => (⟨ds.rows, ds.cols, b64ToU8 ds.data_b64⟩ : Descriptors)) =
      d.descriptors := by
    cases hd : d.descriptors with
    | none => rfl
    | some ds =>
        simp only [Option.map_some']
        rw [b64_roundtrip ds.data (hbytes ds hd)]
  unfold importJSON exportJSON
  rw [if_neg (by simp)]
  simp only []
  rw [hdesc]

/-- Witness for C8 at a concrete detect result. -/
theorem claim_C8_export_import_roundtrip_witness :
    importJSON (exportJSON
      { keypoints := [⟨2, 4, 3, 0, 0, 0, -1⟩]
        descriptors := some ⟨1, 2, [5, 250]⟩
        width := 4
        height := 8 }) = .ok
      { width := 4
        height := 8
        keypoints := [(⟨2, 4, 3, 0, 0, 0, -1⟩ : Keypoint)].map fun kp =>
          { kp with x := kp.x / 4, y := kp.y / 8 }
        descriptors := some ⟨1, 2, [5, 250]⟩ } :=
  claim_C8_export_import_roundtrip
    { keypoints := [⟨2, 4, 3, 0, 0, 0, -1⟩]
      descriptors := some ⟨1, 2, [5, 250]⟩
      width := 4
      height := 8 }
    (by
      intro ds hds x hx
      cases hds
      simp only [List.mem_cons, List.not_mem_nil, or_false] at hx
      rcases hx with rfl | rfl
      · omega
      · omega)

/-! ### Claim C9 -/

/-- Reading pairs out of a flat buffer by index, one step. -/
theorem pairRead (o1 o2 : Option ℚ) (t : List (Option ℚ)) (n : Nat) :
    (List.range (n + 1)).map
      (fun i => ((o1 :: o2 :: t).getD (i * 2) none, (o1 :: o2 :: t).getD (i * 2 + 1) none)) =
    (o1, o2) :: (List.range n).map (fun i => (t.getD (i * 2) none, t.getD (i * 2 + 1) none)) := by
  rw [List.range_succ_eq_map, List.map_cons, List.map_map]
  congr 1
  apply List.map_congr_left
  intro i _
  simp only [Function.comp_apply]
  have h2 : (i + 1) * 2 = i * 2 + 1 + 1 := by ring
  rw [h2]
  simp only [List.getD_cons_succ]

/-- The indexed read-back of the projected flat buffer is the pointwise
projective transform of the landmark list. -/
theorem projFlat_readback (M : List ℚ) (srcSize : SizeWH) :
    ∀ lms : List Pt,
      (List.range lms.length).map
        (fun i => ((projFlat M (flatPts lms srcSize)).getD (i * 2) none,
                   (projFlat M (flatPts lms srcSize)).getD (i * 2 + 1) none)) =
      lms.map (fun lm =>
        let px := lm.x * srcSize.width
        let py := lm.y * srcSize.height
        let wp := M.getD 6 0 * px + M.getD 7 0 * py + M.getD 8 0
        ((if wp = 0 then none else some ((M.getD 0 0 * px + M.getD 1 0 * py + M.getD 2 0) / wp)),
         (if wp = 0 then none else some ((M.getD 3 0 * px + M.getD 4 0 * py + M.getD 5 0) / wp))))
  | [] => rfl
  | lm :: rest => by
      simp only [List.length_cons, flatPts, projFlat, List.map_cons]
      rw [pairRead]
      congr 1
      exact projFlat_readback M srcSize rest

/-- Claim C9: with a 3×3 homography, `transformLandmarks` succeeds and
returns, for every input point, `(x'/w', y'/w')` where
`(x', y', w') = H · (x, y, 1)` on the denormalized point; a point with
`w' = 0` yields a NaN pair (`none`) without aborting the batch — the
other points are still produced. -/
theorem claim_C9_transform_is_projective_division (landmarks : List Pt)
    (srcSize : SizeWH) (M : List ℚ) (hM : M.length = 9) :
    transformLandmarks landmarks srcSize M .homography = .ok
      (landmarks.map fun lm =>
        let px := lm.x * srcSize.width
        let py := lm.y * srcSize.height
        let wp := M.getD 6 0 * px + M.getD 7 0 * py + M.getD 8 0
        ((if wp = 0 then none else some ((M.getD 0 0 * px + M.getD 1 0 * py + M.getD 2 0) / wp)),
         (if wp = 0 then none else some ((M.getD 3 0 * px + M.getD 4 0 * py + M.getD 5 0) / wp)))) := by
  unfold transformLandmarks
  simp only []
  rw [show perspectiveTransformFlat M (flatPts landmarks srcSize) =
      .ok (projFlat M (flatPts landmarks srcSize)) from by
    unfold perspectiveTransformFlat
    rw [if_pos hM]]
  simp only []
  rw [projFlat_readback]

/-- Witness for C9: a rank-deficient `H` whose third row is zero makes
`w' = 0`, and the point comes back as a NaN pair, not an exception. -/
theorem claim_C9_transform_is_projective_division_witness :
    transformLandmarks [Pt.mk 1 2] ⟨1, 1⟩ [1, 0, 0, 0, 1, 0, 0, 0, 0] .homography =
      .ok [(none, none)] := by
  rw [claim_C9_transform_is_projective_division _ _ _ (by rfl)]
  norm_num

end RouteScanner
